import Mathlib

/-!
Shallow embedding of `docs/COLAB_SCRAPER_TEMPLATE.py` (JeanTrail Browser,
Google Colab scraping template) and proofs about its delivery/accounting
pipeline.

External effects are modelled as oracles:
  - the HTTP POST performed by `send_to_webhook` is a function
    `HttpPost` from (url, payload, timeout) to an `HttpResult`, which is
    either a status code or a raised exception;
  - the two scraper adapters, which are stubs in the source, are
    modelled as functions returning `Except String (List ProductRecord)`
    so that an adapter exception can be represented;
  - the wall-clock timestamp `datetime.utcnow().isoformat()` is a string
    parameter `now`.

Counters are modelled as `Int` (Python integers), so non-negativity is a
proved property, not a typing artifact.
-/

namespace ColabScraper

/-- ProductRecord: an open mapping from field name to value; the pipeline
never inspects it beyond passing it along. -/
abbrev ProductRecord := List (String × String)

/-- Lines 21–30 of the source: the module-level configuration constants,
gathered into one record so runs over different configurations can be
compared. -/
structure Config where
  WEBHOOK_URL : String
  GMAIL_ACCOUNT : String
  SUBCATEGORIES : List String
  RATE_LIMIT_PER_MINUTE : Nat
  SCRAPE_TIMEOUT : Nat
deriving DecidableEq

/-- Line 21. -/
def WEBHOOK_URL : String := "http://localhost:5678/webhook/jeantrail-incoming-product"

/-- Line 22. -/
def GMAIL_ACCOUNT : String := "jeantrail1001@gmail.com"

/-- Lines 23–27. -/
def SUBCATEGORIES : List String := ["Bermuda Shorts", "Cravats", "Vests"]

/-- Line 29. -/
def RATE_LIMIT_PER_MINUTE : Nat := 10

/-- Line 30. -/
def SCRAPE_TIMEOUT : Nat := 30

/-- The configuration exactly as written in the source file. -/
def defaultConfig : Config :=
  { WEBHOOK_URL := WEBHOOK_URL
    GMAIL_ACCOUNT := GMAIL_ACCOUNT
    SUBCATEGORIES := SUBCATEGORIES
    RATE_LIMIT_PER_MINUTE := RATE_LIMIT_PER_MINUTE
    SCRAPE_TIMEOUT := SCRAPE_TIMEOUT }

/-- Lines 34–54: `scrape_alibaba_products` is a stub returning the empty
list (its only effect is a print). -/
def scrape_alibaba_products (subcategory : String) : List ProductRecord :=
  []

/-- Lines 56–69: `scrape_1688_products` is a stub returning the empty
list. -/
def scrape_1688_products (subcategory : String) : List ProductRecord :=
  []

/-- Lines 82–87: the `payload` dict literal built by `send_to_webhook`. -/
structure DeliveryEnvelope where
  source : String
  gmail_account : String
  timestamp : String
  product : ProductRecord
deriving DecidableEq

/-- Outcome of one `requests.post` call: either an HTTP response with a
status code, or an exception raised by the call. -/
inductive HttpResult where
  | ok (status_code : Nat)
  | exn (msg : String)

/-- Oracle for `requests.post(WEBHOOK_URL, json=payload, timeout=SCRAPE_TIMEOUT)`:
given the url, the JSON payload and the timeout, what the network does. -/
abbrev HttpPost := String → DeliveryEnvelope → Nat → HttpResult

/-- Lines 82–87: construction of the `payload` dict inside
`send_to_webhook`; `now` stands for `datetime.utcnow().isoformat()`. -/
def buildPayload (cfg : Config) (now : String) (product_data : ProductRecord) :
    DeliveryEnvelope :=
  { source := "colab"
    gmail_account := cfg.GMAIL_ACCOUNT
    timestamp := now
    product := product_data }

/-- Lines 71–104: `send_to_webhook`. Builds the payload, performs the
POST, returns `true` exactly on status code 200; a non-200 status or an
exception yields `false` (the `except` clause). Totality of this
function is the model of `no exception propagates to the caller`. -/
def send_to_webhook (cfg : Config) (now : String) (post : HttpPost)
    (product_data : ProductRecord) : Bool :=
  match post cfg.WEBHOOK_URL (buildPayload cfg now product_data) cfg.SCRAPE_TIMEOUT with
  | .ok status_code => status_code == 200
  | .exn _ => false

/-- Adapter oracle: what a scraper returns for a category, or the
exception it raises. The stubs in the source are `stubAdapter` below;
claims about adapter outputs quantify over this interface. -/
abbrev AdapterFn := String → Except String (List ProductRecord)

/-- The behaviour of the source's stub adapters as an `AdapterFn`: they
always succeed with the empty list. -/
def stubAdapter (a : String → List ProductRecord) : AdapterFn :=
  fun subcategory => .ok (a subcategory)

/-- Lines 126–130: the inner `for product in all_products` loop of
`main`, threading the two counters. -/
def sendProducts (send : ProductRecord → Bool) :
    List ProductRecord → Int × Int → Int × Int
  | [], totals => totals
  | product :: rest, totals =>
    if send product then
      sendProducts send rest (totals.1 + 1, totals.2)
    else
      sendProducts send rest (totals.1, totals.2 + 1)

/-- Lines 120–123: per-category aggregation in `main`:
`all_products = alibaba_products + products_1688`, with an adapter
exception propagating. -/
def aggregateCategory (alibaba products1688 : AdapterFn) (subcategory : String) :
    Except String (List ProductRecord) :=
  match alibaba subcategory with
  | .error e => .error e
  | .ok alibaba_products =>
    match products1688 subcategory with
    | .error e => .error e
    | .ok products_1688 => .ok (alibaba_products ++ products_1688)

/-- Lines 116–130: the outer `for subcategory in SUBCATEGORIES` loop of
`main`, threading `(total_sent, total_failed)`; an adapter exception is
not caught and aborts the loop. -/
def mainLoop (alibaba products1688 : AdapterFn) (send : ProductRecord → Bool) :
    List String → Int × Int → Except String (Int × Int)
  | [], totals => .ok totals
  | subcategory :: rest, totals =>
    match aggregateCategory alibaba products1688 subcategory with
    | .error e => .error e
    | .ok all_products =>
      mainLoop alibaba products1688 send rest (sendProducts send all_products totals)

/-- Lines 106–133: `main`. Starts the counters at `(0, 0)`, runs the
category loop, and the final pair is what the summary line prints. -/
def main (cfg : Config) (alibaba products1688 : AdapterFn)
    (send : ProductRecord → Bool) : Except String (Int × Int) :=
  mainLoop alibaba products1688 send cfg.SUBCATEGORIES (0, 0)

/-- Ghost: the aggregated record sequence of the whole run, in the order
the controller walks it (categories in listed order, Alibaba before 1688
within each category). -/
def allProducts (alibaba products1688 : AdapterFn) :
    List String → Except String (List ProductRecord)
  | [] => .ok []
  | subcategory :: rest =>
    match aggregateCategory alibaba products1688 subcategory with
    | .error e => .error e
    | .ok all_products =>
      match allProducts alibaba products1688 rest with
      | .error e => .error e
      | .ok later => .ok (all_products ++ later)

/-- Ghost: the trace of Delivery Sink invocations of a run, as the list
of (record, outcome) pairs in invocation order. -/
def deliveryTrace (alibaba products1688 : AdapterFn) (send : ProductRecord → Bool) :
    List String → Except String (List (ProductRecord × Bool))
  | [] => .ok []
  | subcategory :: rest =>
    match aggregateCategory alibaba products1688 subcategory with
    | .error e => .error e
    | .ok all_products =>
      match deliveryTrace alibaba products1688 send rest with
      | .error e => .error e
      | .ok later => .ok (all_products.map (fun p => (p, send p)) ++ later)

/-- Single step of the counter loop: the body of lines 127–130 for one
product. -/
def deliverStep (send : ProductRecord → Bool) (totals : Int × Int)
    (product : ProductRecord) : Int × Int :=
  if send product then (totals.1 + 1, totals.2) else (totals.1, totals.2 + 1)

/-- Ghost: the sequence of counter states during `sendProducts send l init`,
state before the first invocation first, final state last. -/
def runStatesAux (send : ProductRecord → Bool) :
    List ProductRecord → Int × Int → List (Int × Int)
  | [], totals => [totals]
  | product :: rest, totals =>
    totals :: runStatesAux send rest (deliverStep send totals product)

/-- Counter states of a run over record list `l`, starting from `(0, 0)`. -/
def runStates (send : ProductRecord → Bool) (l : List ProductRecord) :
    List (Int × Int) :=
  runStatesAux send l (0, 0)

/-! ### Helper lemmas -/

/-- The two counts of a Boolean predicate over a list add up to its length. -/
theorem countP_add_countP_not (send : ProductRecord → Bool) (l : List ProductRecord) :
    l.countP send + l.countP (fun p => !send p) = l.length := by
  induction l with
  | nil => rfl
  | cons p rest ih =>
    cases h : send p <;> simp [List.countP_cons, h] <;> omega

/-- The counter loop adds the success count to the first component and the
failure count to the second. -/
theorem sendProducts_eq_counts (send : ProductRecord → Bool) (l : List ProductRecord) :
    ∀ s f : Int, sendProducts send l (s, f) =
      (s + l.countP send, f + l.countP (fun p => !send p)) := by
  induction l with
  | nil => intro s f; simp [sendProducts]
  | cons p rest ih =>
    intro s f
    cases h : send p <;>
      simp [sendProducts, h, ih, List.countP_cons] <;> ring

/-- The counter loop over a concatenation is the composition of the loops. -/
theorem sendProducts_append (send : ProductRecord → Bool)
    (l1 l2 : List ProductRecord) :
    ∀ totals, sendProducts send (l1 ++ l2) totals =
      sendProducts send l2 (sendProducts send l1 totals) := by
  induction l1 with
  | nil => intro t; simp [sendProducts]
  | cons p rest ih =>
    intro t
    cases h : send p <;> simp [sendProducts, h, ih]

/-- When every adapter call of the run succeeds, the category loop computes
the counter fold over the aggregated record list. -/
theorem mainLoop_eq_of_allProducts_ok (A B : AdapterFn) (send : ProductRecord → Bool) :
    ∀ (cats : List String) (l : List ProductRecord) (totals : Int × Int),
      allProducts A B cats = .ok l →
      mainLoop A B send cats totals = .ok (sendProducts send l totals) := by
  intro cats
  induction cats with
  | nil =>
    intro l totals h
    simp [allProducts] at h
    subst h
    simp [mainLoop, sendProducts]
  | cons c cs ih =>
    intro l totals h
    rw [allProducts] at h
    cases hagg : aggregateCategory A B c with
    | error e => rw [hagg] at h; exact absurd h (by simp)
    | ok prods =>
      rw [hagg] at h
      cases hrest : allProducts A B cs with
      | error e => rw [hrest] at h; exact absurd h (by simp)
      | ok later =>
        rw [hrest] at h
        injection h with h
        subst h
        rw [mainLoop, hagg]
        dsimp only
        rw [ih later _ hrest, sendProducts_append]

/-- When some adapter call of the run fails, the category loop propagates
the same error. -/
theorem mainLoop_error_of_allProducts_error (A B : AdapterFn) (send : ProductRecord → Bool) :
    ∀ (cats : List String) (e : String) (totals : Int × Int),
      allProducts A B cats = .error e →
      mainLoop A B send cats totals = .error e := by
  intro cats
  induction cats with
  | nil => intro e totals h; exact absurd h (by simp [allProducts])
  | cons c cs ih =>
    intro e totals h
    rw [allProducts] at h
    cases hagg : aggregateCategory A B c with
    | error e2 =>
      rw [hagg] at h
      injection h with h
      subst h
      rw [mainLoop, hagg]
    | ok prods =>
      rw [hagg] at h
      cases hrest : allProducts A B cs with
      | error e2 =>
        rw [hrest] at h
        injection h with h
        subst h
        rw [mainLoop, hagg]
        exact ih _ _ hrest
      | ok later => rw [hrest] at h; exact absurd h (by simp)

/-- The delivery trace is the aggregated record list tagged with each
record's outcome. -/
theorem deliveryTrace_eq (A B : AdapterFn) (send : ProductRecord → Bool) :
    ∀ cats : List String,
      deliveryTrace A B send cats =
        (allProducts A B cats).map (List.map (fun p => (p, send p))) := by
  intro cats
  induction cats with
  | nil => simp [deliveryTrace, allProducts, Except.map]
  | cons c cs ih =>
    rw [deliveryTrace, allProducts]
    cases hagg : aggregateCategory A B c with
    | error e => simp [Except.map]
    | ok prods =>
      rw [ih]
      cases hrest : allProducts A B cs with
      | error e => simp [Except.map]
      | ok later => simp [Except.map]

/-- Processing a prefix of categories whose adapter calls all succeed just
advances the counters by the prefix's fold. -/
theorem mainLoop_append_of_ok (A B : AdapterFn) (send : ProductRecord → Bool) :
    ∀ (pre cats2 : List String) (l : List ProductRecord) (totals : Int × Int),
      allProducts A B pre = .ok l →
      mainLoop A B send (pre ++ cats2) totals =
        mainLoop A B send cats2 (sendProducts send l totals) := by
  intro pre
  induction pre with
  | nil =>
    intro cats2 l totals h
    simp [allProducts] at h
    subst h
    simp [sendProducts]
  | cons c cs ih =>
    intro cats2 l totals h
    rw [allProducts] at h
    cases hagg : aggregateCategory A B c with
    | error e => rw [hagg] at h; exact absurd h (by simp)
    | ok prods =>
      rw [hagg] at h
      cases hrest : allProducts A B cs with
      | error e => rw [hrest] at h; exact absurd h (by simp)
      | ok later =>
        rw [hrest] at h
        injection h with h
        subst h
        rw [List.cons_append, mainLoop, hagg]
        dsimp only
        rw [ih cats2 later _ hrest, sendProducts_append]

/-- The list of counter states has one entry per delivery plus the initial
state. -/
theorem runStatesAux_length (send : ProductRecord → Bool) :
    ∀ (l : List ProductRecord) (t : Int × Int),
      (runStatesAux send l t).length = l.length + 1 := by
  intro l
  induction l with
  | nil => intro t; rfl
  | cons p rest ih => intro t; simp [runStatesAux, ih]

/-- The k-th counter state is the fold of the first k deliveries. -/
theorem runStatesAux_getD (send : ProductRecord → Bool) :
    ∀ (l : List ProductRecord) (t : Int × Int) (k : Nat), k ≤ l.length →
      (runStatesAux send l t).getD k (0, 0) = sendProducts send (l.take k) t := by
  intro l
  induction l with
  | nil =>
    intro t k hk
    have : k = 0 := Nat.le_zero.mp hk
    subst this
    simp [runStatesAux, sendProducts]
  | cons p rest ih =>
    intro t k hk
    cases k with
    | zero => simp [runStatesAux, sendProducts]
    | succ k =>
      rw [runStatesAux, List.getD_cons_succ,
        ih (deliverStep send t p) k (by simpa using hk), List.take_succ_cons]
      cases h : send p <;> simp [sendProducts, deliverStep, h]

/-! ### Concrete fixtures used by the witness theorems -/

/-- Concrete product record used in witnesses. -/
def wRecord1 : ProductRecord := [("name", "blue vest"), ("price", "12")]

/-- Second concrete product record used in witnesses. -/
def wRecord2 : ProductRecord := [("name", "red vest")]

/-- Concrete configuration with a single category. -/
def wConfig : Config :=
  { WEBHOOK_URL := "http://localhost:5678/webhook/jeantrail-incoming-product"
    GMAIL_ACCOUNT := "jeantrail1001@gmail.com"
    SUBCATEGORIES := ["Vests"]
    RATE_LIMIT_PER_MINUTE := 10
    SCRAPE_TIMEOUT := 30 }

/-- Concrete configuration differing from `wConfig` only in the endpoint. -/
def wConfig2 : Config :=
  { WEBHOOK_URL := "http://other:5678/webhook"
    GMAIL_ACCOUNT := "jeantrail1001@gmail.com"
    SUBCATEGORIES := ["Vests"]
    RATE_LIMIT_PER_MINUTE := 10
    SCRAPE_TIMEOUT := 30 }

/-- Concrete configuration with no categories. -/
def wEmptyConfig : Config :=
  { WEBHOOK_URL := "http://localhost:5678/webhook/jeantrail-incoming-product"
    GMAIL_ACCOUNT := "jeantrail1001@gmail.com"
    SUBCATEGORIES := []
    RATE_LIMIT_PER_MINUTE := 10
    SCRAPE_TIMEOUT := 30 }

/-- Concrete Alibaba-adapter oracle returning one record. -/
def wAdapterA : AdapterFn := fun _ => .ok [wRecord1]

/-- Concrete 1688-adapter oracle returning one record. -/
def wAdapterB : AdapterFn := fun _ => .ok [wRecord2]

/-- Concrete adapter oracle that raises. -/
def wFailAdapter : AdapterFn := fun _ => .error "boom"

/-- Concrete Delivery Sink behaviour that always succeeds. -/
def wSendTrue : ProductRecord → Bool := fun _ => true

/-! ### The claims -/

/-- C1: `send_to_webhook` returns true iff the POST to the configured
endpoint, with the built payload and configured timeout, yields status
code exactly 200; any other status or an exception of the call yields
false, and no exception escapes (the function is total into `Bool`). -/
theorem C1_send_true_iff_status_200 (cfg : Config) (now : String)
    (post : HttpPost) (p : ProductRecord) :
    send_to_webhook cfg now post p = true ↔
      post cfg.WEBHOOK_URL (buildPayload cfg now p) cfg.SCRAPE_TIMEOUT = .ok 200 := by
  unfold send_to_webhook
  cases h : post cfg.WEBHOOK_URL (buildPayload cfg now p) cfg.SCRAPE_TIMEOUT with
  | ok status_code => simp
  | exn msg => simp

/-- C2: when every adapter call succeeds and the aggregated record list is
`l`, the final summary counts exactly the true results in `sent` and the
false results in `failed`; the two counts add up to the number of records,
all-true runs give `(N, 0)` and all-false runs give `(0, N)`. -/
theorem C2_summary_counts (cfg : Config) (A B : AdapterFn)
    (send : ProductRecord → Bool) (l : List ProductRecord)
    (h : allProducts A B cfg.SUBCATEGORIES = .ok l) :
    main cfg A B send = .ok ((l.countP send : Int), (l.countP (fun p => !send p) : Int))
      ∧ (l.countP send : Int) + (l.countP (fun p => !send p) : Int) = (l.length : Int)
      ∧ ((∀ p ∈ l, send p = true) → main cfg A B send = .ok ((l.length : Int), 0))
      ∧ ((∀ p ∈ l, send p = false) → main cfg A B send = .ok (0, (l.length : Int))) := by
  have hmain : main cfg A B send = .ok (sendProducts send l (0, 0)) :=
    mainLoop_eq_of_allProducts_ok A B send cfg.SUBCATEGORIES l (0, 0) h
  rw [sendProducts_eq_counts] at hmain
  simp only [zero_add] at hmain
  refine ⟨hmain, ?_, ?_, ?_⟩
  · have := countP_add_countP_not send l
    exact_mod_cast congrArg (Nat.cast : Nat → Int) this
  · intro hall
    rw [hmain]
    have h1 : l.countP send = l.length := List.countP_eq_length.mpr hall
    have h2 : l.countP (fun p => !send p) = 0 := by
      rw [List.countP_eq_zero]
      intro a ha
      simp [hall a ha]
    rw [h1, h2]
    simp
  · intro hall
    rw [hmain]
    have h1 : l.countP send = 0 := by
      rw [List.countP_eq_zero]
      intro a ha
      simp [hall a ha]
    have h2 : l.countP (fun p => !send p) = l.length := by
      rw [List.countP_eq_length]
      intro a ha
      simp [hall a ha]
    rw [h1, h2]
    simp

/-- C2 witness: with one category, two records and an always-succeeding
sink, the hypothesis holds by computation and the summary is `(2, 0)`. -/
theorem C2_summary_counts_witness :
    allProducts wAdapterA wAdapterB wConfig.SUBCATEGORIES = .ok [wRecord1, wRecord2]
      ∧ main wConfig wAdapterA wAdapterB wSendTrue = .ok (2, 0) := by
  refine ⟨rfl, ?_⟩
  have h := (C2_summary_counts wConfig wAdapterA wAdapterB wSendTrue
    [wRecord1, wRecord2] rfl).2.2.1 (fun p _ => rfl)
  simpa using h

/-- C3: the trace of Delivery Sink invocations is the aggregated record
sequence in order, each record paired with its own outcome — so every
record is attempted exactly once, in sequence order, and which records are
attempted does not depend on the sink's outcomes. -/
theorem C3_attempts_in_order_once (cfg : Config) (A B : AdapterFn)
    (send send2 : ProductRecord → Bool) :
    deliveryTrace A B send cfg.SUBCATEGORIES =
        (allProducts A B cfg.SUBCATEGORIES).map (List.map (fun p => (p, send p)))
      ∧ (deliveryTrace A B send cfg.SUBCATEGORIES).map (List.map Prod.fst)
          = (deliveryTrace A B send2 cfg.SUBCATEGORIES).map (List.map Prod.fst) := by
  refine ⟨deliveryTrace_eq A B send cfg.SUBCATEGORIES, ?_⟩
  rw [deliveryTrace_eq, deliveryTrace_eq]
  cases allProducts A B cfg.SUBCATEGORIES with
  | error e => rfl
  | ok l => simp [Except.map, List.map_map, Function.comp]

/-- C4: the payload has exactly source = "colab", gmail_account from the
configuration, timestamp = the time string at send, product = the input
record; and it depends on the configuration only through the account
string, so with the timestamp held fixed it is a deterministic function of
record and configuration. -/
theorem C4_envelope_fields (cfg cfg2 : Config) (now : String) (p : ProductRecord) :
    (buildPayload cfg now p).source = "colab"
      ∧ (buildPayload cfg now p).gmail_account = cfg.GMAIL_ACCOUNT
      ∧ (buildPayload cfg now p).timestamp = now
      ∧ (buildPayload cfg now p).product = p
      ∧ (cfg2.GMAIL_ACCOUNT = cfg.GMAIL_ACCOUNT →
          buildPayload cfg2 now p = buildPayload cfg now p) := by
  refine ⟨rfl, rfl, rfl, rfl, fun h => ?_⟩
  simp [buildPayload, h]

/-- C4 witness: the field equations at a concrete record, and determinism
across two configurations sharing the account string. -/
theorem C4_envelope_fields_witness :
    (buildPayload wConfig "2026-10-12T00:00:00" wRecord1).source = "colab"
      ∧ buildPayload wConfig2 "2026-10-12T00:00:00" wRecord1
          = buildPayload wConfig "2026-10-12T00:00:00" wRecord1 :=
  ⟨(C4_envelope_fields wConfig wConfig2 "2026-10-12T00:00:00" wRecord1).1,
   (C4_envelope_fields wConfig wConfig2 "2026-10-12T00:00:00" wRecord1).2.2.2.2 rfl⟩

/-- C5: per category, the aggregated sequence is exactly the Alibaba
adapter's output followed by the 1688 adapter's output: the first
`la.length` positions hold `la` and the remaining positions hold `lb`,
preserving within-adapter order. -/
theorem C5_aggregate_is_concat (A B : AdapterFn) (c : String)
    (la lb : List ProductRecord) (hA : A c = .ok la) (hB : B c = .ok lb) :
    aggregateCategory A B c = .ok (la ++ lb)
      ∧ (la ++ lb).take la.length = la
      ∧ (la ++ lb).drop la.length = lb := by
  unfold aggregateCategory
  rw [hA, hB]
  exact ⟨rfl, List.take_left la lb, List.drop_left la lb⟩

/-- C5 witness: concrete adapters returning one record each aggregate to
the two-record concatenation. -/
theorem C5_aggregate_is_concat_witness :
    wAdapterA "Vests" = .ok [wRecord1]
      ∧ wAdapterB "Vests" = .ok [wRecord2]
      ∧ aggregateCategory wAdapterA wAdapterB "Vests" = .ok ([wRecord1] ++ [wRecord2]) :=
  ⟨rfl, rfl,
   (C5_aggregate_is_concat wAdapterA wAdapterB "Vests" [wRecord1] [wRecord2] rfl rfl).1⟩

/-- C6: an adapter exception in any category (all earlier categories
having succeeded) is not caught: the run returns that very error, whatever
the later categories and the sink behaviour are, so nothing after the
failing call is processed. -/
theorem C6_adapter_error_propagates (cfg : Config) (A B : AdapterFn)
    (send : ProductRecord → Bool) (pre rest : List String) (c : String)
    (l : List ProductRecord) (e : String)
    (hcats : cfg.SUBCATEGORIES = pre ++ c :: rest)
    (hpre : allProducts A B pre = .ok l)
    (hc : aggregateCategory A B c = .error e) :
    main cfg A B send = .error e := by
  rw [main, hcats, mainLoop_append_of_ok A B send pre (c :: rest) l (0, 0) hpre,
    mainLoop, hc]

/-- C6 witness: a raising Alibaba adapter on the single configured
category makes the whole run return its error. -/
theorem C6_adapter_error_propagates_witness :
    wConfig.SUBCATEGORIES = [] ++ "Vests" :: []
      ∧ allProducts wFailAdapter wAdapterB [] = .ok []
      ∧ aggregateCategory wFailAdapter wAdapterB "Vests" = .error "boom"
      ∧ main wConfig wFailAdapter wAdapterB wSendTrue = .error "boom" :=
  ⟨rfl, rfl, rfl,
   C6_adapter_error_propagates wConfig wFailAdapter wAdapterB wSendTrue
     [] [] "Vests" [] "boom" rfl rfl rfl⟩

/-- C7: with an empty category list the run ends with `sent = 0`,
`failed = 0`, and the delivery trace is empty: the sink is never
invoked. -/
theorem C7_empty_categories (cfg : Config) (A B : AdapterFn)
    (send : ProductRecord → Bool) (h : cfg.SUBCATEGORIES = []) :
    main cfg A B send = .ok (0, 0)
      ∧ deliveryTrace A B send cfg.SUBCATEGORIES = .ok [] := by
  rw [main, h]
  exact ⟨rfl, rfl⟩

/-- C7 witness: the concrete empty configuration yields the zero summary
and the empty trace. -/
theorem C7_empty_categories_witness :
    wEmptyConfig.SUBCATEGORIES = []
      ∧ main wEmptyConfig wAdapterA wAdapterB wSendTrue = .ok (0, 0)
      ∧ deliveryTrace wAdapterA wAdapterB wSendTrue wEmptyConfig.SUBCATEGORIES = .ok [] :=
  ⟨rfl,
   (C7_empty_categories wEmptyConfig wAdapterA wAdapterB wSendTrue rfl).1,
   (C7_empty_categories wEmptyConfig wAdapterA wAdapterB wSendTrue rfl).2⟩

/-- C8: two runs identical except for `RATE_LIMIT_PER_MINUTE` produce the
same summary, the same delivery trace, and the same per-record sink
result: the cap is read by no component. -/
theorem C8_rate_limit_unread (cfg : Config) (r1 r2 : Nat) (now : String)
    (post : HttpPost) (A B : AdapterFn) (send : ProductRecord → Bool)
    (p : ProductRecord) :
    main (Config.mk cfg.WEBHOOK_URL cfg.GMAIL_ACCOUNT cfg.SUBCATEGORIES r1 cfg.SCRAPE_TIMEOUT) A B send
        = main (Config.mk cfg.WEBHOOK_URL cfg.GMAIL_ACCOUNT cfg.SUBCATEGORIES r2 cfg.SCRAPE_TIMEOUT) A B send
      ∧ deliveryTrace A B send
            (Config.mk cfg.WEBHOOK_URL cfg.GMAIL_ACCOUNT cfg.SUBCATEGORIES r1 cfg.SCRAPE_TIMEOUT).SUBCATEGORIES
          = deliveryTrace A B send
            (Config.mk cfg.WEBHOOK_URL cfg.GMAIL_ACCOUNT cfg.SUBCATEGORIES r2 cfg.SCRAPE_TIMEOUT).SUBCATEGORIES
      ∧ send_to_webhook (Config.mk cfg.WEBHOOK_URL cfg.GMAIL_ACCOUNT cfg.SUBCATEGORIES r1 cfg.SCRAPE_TIMEOUT) now post p
          = send_to_webhook (Config.mk cfg.WEBHOOK_URL cfg.GMAIL_ACCOUNT cfg.SUBCATEGORIES r2 cfg.SCRAPE_TIMEOUT) now post p :=
  ⟨rfl, rfl, rfl⟩

/-- C9: the pipeline passes records through opaquely: the transmitted
payload's product field is the input record itself, and the records the
controller hands to the sink are exactly the adapters' outputs,
unchanged. -/
theorem C9_product_passthrough (cfg : Config) (now : String) (p : ProductRecord)
    (A B : AdapterFn) (send : ProductRecord → Bool) :
    (buildPayload cfg now p).product = p
      ∧ (deliveryTrace A B send cfg.SUBCATEGORIES).map (List.map Prod.fst)
          = allProducts A B cfg.SUBCATEGORIES := by
  refine ⟨rfl, ?_⟩
  rw [deliveryTrace_eq]
  cases allProducts A B cfg.SUBCATEGORIES with
  | error e => rfl
  | ok l =>
    simp only [Except.map, List.map_map]
    exact congrArg Except.ok (List.map_id'' (fun x => rfl) l)

/-- C10: along the run, each counter state is non-negative in both
components, the two components add up to the number of sink invocations
made so far, each invocation increments exactly one of the two counters by
exactly 1 (hence both are monotonically non-decreasing), and the last
state is the fold the controller's summary reports. -/
theorem C10_counter_invariants (send : ProductRecord → Bool)
    (l : List ProductRecord) (k : Nat)
    (hk : k < (runStates send l).length) :
    0 ≤ ((runStates send l).getD k (0, 0)).1
      ∧ 0 ≤ ((runStates send l).getD k (0, 0)).2
      ∧ ((runStates send l).getD k (0, 0)).1
          + ((runStates send l).getD k (0, 0)).2 = (k : Int)
      ∧ (k + 1 < (runStates send l).length →
          (runStates send l).getD (k + 1) (0, 0)
              = (((runStates send l).getD k (0, 0)).1 + 1,
                 ((runStates send l).getD k (0, 0)).2)
            ∨ (runStates send l).getD (k + 1) (0, 0)
              = (((runStates send l).getD k (0, 0)).1,
                 ((runStates send l).getD k (0, 0)).2 + 1))
      ∧ (runStates send l).getD l.length (0, 0) = sendProducts send l (0, 0) := by
  have hlen : (runStates send l).length = l.length + 1 :=
    runStatesAux_length send l (0, 0)
  have hkle : k ≤ l.length := by omega
  have hgetk : (runStates send l).getD k (0, 0) =
      sendProducts send (l.take k) (0, 0) :=
    runStatesAux_getD send l (0, 0) k hkle
  have hcounts := sendProducts_eq_counts send (l.take k) 0 0
  have hlk : (l.take k).length = k := by
    rw [List.length_take]
    omega
  have hsum := countP_add_countP_not send (l.take k)
  rw [hgetk, hcounts]
  simp only [zero_add]
  refine ⟨by positivity, by positivity, ?_, ?_, ?_⟩
  · dsimp only
    rw [hlk] at hsum
    omega
  · intro h2
    have hklt : k < l.length := by omega
    have hget1 : (runStates send l).getD (k + 1) (0, 0) =
        sendProducts send (l.take (k + 1)) (0, 0) :=
      runStatesAux_getD send l (0, 0) (k + 1) (by omega)
    have htake : l.take (k + 1) = l.take k ++ [l[k]] := by
      rw [List.take_succ, List.getElem?_eq_getElem hklt]
      rfl
    rw [hget1, htake, sendProducts_append, hcounts]
    cases h : send l[k]
    · right
      simp [sendProducts, h]
    · left
      simp [sendProducts, h]
  · have hfin := runStatesAux_getD send l (0, 0) l.length (Nat.le_refl _)
    rw [List.take_length] at hfin
    exact hfin

/-- C10 witness: for a two-record run with an always-succeeding sink, the
state after the first invocation has counter sum 1. -/
theorem C10_counter_invariants_witness :
    1 < (runStates wSendTrue [wRecord1, wRecord2]).length
      ∧ ((runStates wSendTrue [wRecord1, wRecord2]).getD 1 (0, 0)).1
          + ((runStates wSendTrue [wRecord1, wRecord2]).getD 1 (0, 0)).2
          = ((1 : Nat) : Int) :=
  ⟨by decide,
   (C10_counter_invariants wSendTrue [wRecord1, wRecord2] 1 (by decide)).2.2.1⟩

end ColabScraper
